import Mathlib

/-
Verification of the rollout-collection / buffer-insertion / evaluation
control loop of `runner/jsbsim_runner.py` (class JSBSimRunner), shallowly
embedded in Lean 4.  Tensors are modelled either as nested lists (when axis
reshaping is the point) or as functions out of `Fin` index types (when
pointwise masking is the point); numeric entries are rationals.
-/

namespace CloseAirCombat

/-! ## Rollout Collector: flatten / split (src collect, lines 93-106) -/

/-- Flattening performed by `np.concatenate` over the leading (environment)
axis in `collect`: the rows of all environments are laid out
environment-major, agent-minor in one flat batch axis. -/
def npConcat {α : Type} (xss : List (List α)) : List α := xss.flatten

/-- Helper for `npSplit`: take `n` successive blocks of length `k`. -/
def splitBlocks {α : Type} (k : Nat) : Nat → List α → List (List α)
  | 0, _ => []
  | n + 1, l => l.take k :: splitBlocks k n (l.drop k)

/-- Splitting performed by `np.split(arr, n_rollout_threads)` in `collect`:
the leading axis is cut into `e` contiguous equal blocks of length
`arr.length / e`. -/
def npSplit {α : Type} (l : List α) (e : Nat) : List (List α) :=
  splitBlocks (l.length / e) e l

/-! ## Training-Loop Orchestrator: cycle and insert counts (src run, lines 35-53) -/

/-- Number of update cycles computed by `run`:
`episodes = int(self.num_env_steps) // self.buffer_size // self.n_rollout_threads`. -/
def numUpdateCycles (tTotal bufferSize nRolloutThreads : Nat) : Nat :=
  tTotal / bufferSize / nRolloutThreads

/-- Helper: the collect-step-insert iterations performed by the first `n`
update cycles, as (cycle index, step index) pairs; each pair is one
`self.insert(data)` call. -/
def runScheduleAux (bufferSize : Nat) : Nat → List (Nat × Nat)
  | 0 => []
  | n + 1 =>
      runScheduleAux bufferSize n ++ (List.range bufferSize).map (fun st => (n, st))

/-- The full iteration schedule of `run`: for each of the
`numUpdateCycles` update cycles, `buffer_size` collect-step-insert
iterations, each performing exactly one buffer insert (src lines 40-53). -/
def runSchedule (tTotal bufferSize nRolloutThreads : Nat) : List (Nat × Nat) :=
  runScheduleAux bufferSize (numUpdateCycles tTotal bufferSize nRolloutThreads)

/-- The checkpoint-save decision in `run` (src lines 62-64):
`episode % self.save_interval == 0 or episode == episodes - 1`. -/
def saveFires (episode episodes saveInterval : Nat) : Bool :=
  (episode % saveInterval == 0) || (episode == episodes - 1)

/-! ### Lemmas -/

theorem splitBlocks_flatten {α : Type} (A : Nat) :
    ∀ (xss : List (List α)), (∀ xs ∈ xss, xs.length = A) →
      splitBlocks A xss.length xss.flatten = xss := by
  intro xss
  induction xss with
  | nil => intro _; rfl
  | cons xs rest ih =>
      intro h
      have hxs : xs.length = A := h xs (List.mem_cons_self xs rest)
      simp only [List.flatten_cons, List.length_cons, splitBlocks]
      have h1 : List.take A (xs ++ rest.flatten) = xs := by
        rw [← hxs, List.take_left]
      have h2 : List.drop A (xs ++ rest.flatten) = rest.flatten := by
        rw [← hxs, List.drop_left]
      rw [h1, h2, ih (fun ys hys => h ys (List.mem_cons_of_mem xs hys))]

theorem flatten_length_of_uniform {α : Type} (A : Nat) (xss : List (List α))
    (h : ∀ xs ∈ xss, xs.length = A) : xss.flatten.length = xss.length * A := by
  induction xss with
  | nil => simp
  | cons xs rest ih =>
      simp only [List.flatten_cons, List.length_append, List.length_cons]
      rw [h xs (List.mem_cons_self xs rest),
          ih (fun ys hys => h ys (List.mem_cons_of_mem xs hys))]
      ring

theorem runScheduleAux_length (bufferSize : Nat) :
    ∀ n, (runScheduleAux bufferSize n).length = n * bufferSize := by
  intro n
  induction n with
  | zero => simp [runScheduleAux]
  | succ n ih =>
      simp only [runScheduleAux, List.length_append, List.length_map,
        List.length_range, ih]
      ring

theorem runScheduleAux_fst_lt (bufferSize : Nat) :
    ∀ n, ∀ p ∈ runScheduleAux bufferSize n, p.1 < n := by
  intro n
  induction n with
  | zero => intro p hp; cases hp
  | succ n ih =>
      intro p hp
      rcases List.mem_append.mp hp with h | h
      · exact Nat.lt_succ_of_lt (ih p h)
      · rcases List.mem_map.mp h with ⟨st, _, rfl⟩
        exact Nat.lt_succ_self n

theorem filter_map_pair_eq {ep c : Nat} (l : List Nat) :
    ((l.map (fun st => (c, st))).filter (fun p => p.1 = ep)) =
      if c = ep then l.map (fun st => (c, st)) else [] := by
  induction l with
  | nil => simp
  | cons x xs ih =>
      by_cases hc : c = ep
      · simp [hc] at ih ⊢
      · simp [hc] at ih ⊢

theorem runScheduleAux_filter (bufferSize ep : Nat) :
    ∀ n, ep < n →
      ((runScheduleAux bufferSize n).filter (fun p => p.1 = ep)) =
        (List.range bufferSize).map (fun st => (ep, st)) := by
  intro n
  induction n with
  | zero => intro h; cases h
  | succ n ih =>
      intro h
      simp only [runScheduleAux, List.filter_append]
      rcases Nat.lt_succ_iff_lt_or_eq.mp h with h' | h'
      · rw [ih h', filter_map_pair_eq]
        have : n ≠ ep := Nat.ne_of_gt h'
        simp [this]
      · subst h'
        rw [filter_map_pair_eq]
        have hempty : (runScheduleAux bufferSize ep).filter (fun p => p.1 = ep) = [] := by
          apply List.filter_eq_nil_iff.mpr
          intro p hp
          have := runScheduleAux_fst_lt bufferSize ep p hp
          simp only [decide_eq_true_eq]
          exact Nat.ne_of_lt this
        simp [hempty]

/-! ## Buffer, insert masking and warmup (src lines 87-114) -/

/-- Per-step recurrent-state tensor: environment times agent times feature,
with rational entries. -/
def StateTensor (E A F : Nat) : Type := Fin E → Fin A → Fin F → ℚ

/-- Per-step observation tensor: environment times agent times feature. -/
def ObsTensor (E A O : Nat) : Type := Fin E → Fin A → Fin O → ℚ

/-- The slices of the trajectory buffer that the claims touch: the
time-indexed observation and recurrent-state arrays (slots `0..H` are the
meaningful ones; the time index is a plain natural number). -/
structure TrajBuffer (E A F O : Nat) where
  obs : Nat → ObsTensor E A O
  rnn_states_actor : Nat → StateTensor E A F
  rnn_states_critic : Nat → StateTensor E A F

/-- Recurrent-state reset masking performed inside `insert` (src lines
108-111): `rnn_states_actor[dones == True] = np.zeros(((dones == True).sum(),
...))` overwrites every environment/agent slot whose done flag is true with
the zero vector and leaves every other slot untouched. -/
def maskReset {E A F : Nat} (dones : Fin E → Fin A → Bool)
    (st : StateTensor E A F) : StateTensor E A F :=
  fun e a f => if dones e a then 0 else st e a f

/-- Modelled from the spec: the slot placement of `ReplayBuffer.insert`
(defined in `runner/base_runner.py`, which is not under src/).  Per the
Trajectory Buffer contract it "appends one step's transition at the next free
slot, advancing an internal step cursor": the transition produced at step `t`
is stored at slot `t + 1`.  Only the recurrent-state fields are modelled;
the other arrays play no role in the claims about this call. -/
def bufferInsertStates {E A F O : Nat} (buf : TrajBuffer E A F O) (t : Nat)
    (stActor stCritic : StateTensor E A F) : TrajBuffer E A F O :=
  { buf with
    rnn_states_actor := Function.update buf.rnn_states_actor (t + 1) stActor
    rnn_states_critic := Function.update buf.rnn_states_critic (t + 1) stCritic }

/-- The runner-level `insert` (src lines 107-114): masks both recurrent-state
tensors with the done flags, then hands them to the buffer insert for step
`t`. -/
def runnerInsert {E A F O : Nat} (buf : TrajBuffer E A F O) (t : Nat)
    (dones : Fin E → Fin A → Bool)
    (updActor updCritic : StateTensor E A F) : TrajBuffer E A F O :=
  bufferInsertStates buf t (maskReset dones updActor) (maskReset dones updCritic)

/-- The recurrent actor states handed to the Policy by `collect` at a given
step (src lines 96-99): `np.concatenate(self.buffer.rnn_states_actor[step])`,
i.e. the contents of buffer slot `step` (the flatten/split round-trip is
content-preserving, see the Rollout Collector theorems). -/
def collectStatesActor {E A F O : Nat} (buf : TrajBuffer E A F O) (step : Nat) :
    StateTensor E A F :=
  buf.rnn_states_actor step

/-- The recurrent critic states handed to the Policy by `collect` at a given
step (src lines 96-99). -/
def collectStatesCritic {E A F O : Nat} (buf : TrajBuffer E A F O) (step : Nat) :
    StateTensor E A F :=
  buf.rnn_states_critic step

/-- The `warmup` method (src lines 87-90): resets the environments and copies
the returned observations into buffer slot 0.  No other buffer field is
written by `warmup`. -/
def warmup {E A F O : Nat} (resetObs : ObsTensor E A O)
    (buf : TrajBuffer E A F O) : TrajBuffer E A F O :=
  { buf with obs := Function.update buf.obs 0 resetObs }

/-! ## Algorithm / arity checking in `load` (src lines 15-32) -/

/-- Errors that `load` can raise before any simulation begins. -/
inductive LoadError : Type
  | assertionError
  | indexError
  | notImplementedError
deriving DecidableEq

/-- The objects `load` constructs on success: the policy (built from the
first observation and action spaces), the trainer wrapping the policy, and
the replay buffer (built from the agent count and the spaces). -/
structure LoadedComponents : Type where
  policyObsSpace : Nat
  policyActSpace : Nat
  bufferNumAgents : Nat
deriving DecidableEq

/-- The `load` method (src lines 15-32), with spaces modelled as lists of
space identifiers: first asserts
`len(self.envs.observation_space) == self.num_agents`, then reads
`observation_space[0]` and `action_space[0]` (an index error on an empty
list), then dispatches on the algorithm name — "ppo" is the only known
identifier, anything else raises `NotImplementedError` — and finally
constructs policy, trainer and buffer. -/
def load (algorithmName : String) (observationSpace actionSpace : List Nat)
    (numAgents : Nat) : Except LoadError LoadedComponents :=
  if observationSpace.length ≠ numAgents then .error .assertionError
  else
    match observationSpace.head?, actionSpace.head? with
    | some o, some a =>
        if algorithmName = "ppo" then .ok ⟨o, a, numAgents⟩
        else .error .notImplementedError
    | _, _ => .error .indexError

/-- True exactly when `load` raised (a fatal error before any simulation). -/
def loadIsFatal (r : Except LoadError LoadedComponents) : Bool :=
  match r with
  | .error _ => true
  | .ok _ => false

/-! ## Evaluation Loop (src eval, lines 116-146) -/

/-- State carried across iterations of the evaluation while-loop:
`total_episodes`, the `eval_episode_rewards` list, the per-environment
cumulative-reward accumulator, and the evaluation recurrent states. -/
structure EvalState (E A F : Nat) : Type where
  totalEpisodes : Nat
  episodeRewards : List ℚ
  cumulativeRewards : Fin E → ℚ
  rnnStates : Fin E → Fin A → Fin F → ℚ

/-- What one evaluation iteration receives from outside: the step rewards
(one scalar per environment), the per-agent done flags, and the recurrent
states the Policy act call returned for this step. -/
structure EvalStepInput (E A F : Nat) : Type where
  rewards : Fin E → ℚ
  dones : Fin E → Fin A → Bool
  newRnn : Fin E → Fin A → Fin F → ℚ

/-- The per-environment done reduction `eval_dones = np.all(eval_dones,
axis=-1)` (src line 136): logical AND across the agent axis. -/
def envDone {E A : Nat} (dones : Fin E → Fin A → Bool) (e : Fin E) : Bool :=
  (List.finRange A).all (fun a => dones e a)

/-- The environments currently flagged done, in increasing environment
order — the order in which boolean-mask indexing enumerates them. -/
def doneListAux {E : Nat} (done : Fin E → Bool) : List (Fin E) :=
  (List.finRange E).filter (fun e => done e)

/-- One iteration of the evaluation while-loop body (src lines 126-141), in
source order: the accumulator receives this step's rewards
(`eval_cumulative_rewards += eval_rewards`); the done flags are reduced
across agents; `total_episodes` grows by the number of done environments
(`np.sum`); the cumulative rewards of the done environments are appended to
the result list in environment order; the accumulator of every done
environment is reset to zero; the recurrent states become the Policy output
for this step, zeroed for every done environment. -/
def evalStep {E A F : Nat} (inp : EvalStepInput E A F) (st : EvalState E A F) :
    EvalState E A F :=
  let cum := fun e => st.cumulativeRewards e + inp.rewards e
  let d := fun e => envDone inp.dones e
  { totalEpisodes := st.totalEpisodes + (doneListAux d).length
    episodeRewards := st.episodeRewards ++ (doneListAux d).map cum
    cumulativeRewards := fun e => if d e then 0 else cum e
    rnnStates := fun e a f => if d e then 0 else inp.newRnn e a f }

/-- The evaluation while-loop (src line 126): `while total_episodes <
self.eval_episodes`, consuming one step input per iteration; the script list
supplies the environment/Policy responses of successive iterations. -/
def evalLoop {E A F : Nat} (target : Nat) :
    List (EvalStepInput E A F) → EvalState E A F → EvalState E A F
  | [], st => st
  | inp :: rest, st =>
      if st.totalEpisodes < target then evalLoop target rest (evalStep inp st)
      else st

/-- The state entering the evaluation while-loop (src lines 119-124):
zero completed episodes, empty reward list, zero accumulator, zero recurrent
states. -/
def evalInitState (E A F : Nat) : EvalState E A F :=
  { totalEpisodes := 0
    episodeRewards := []
    cumulativeRewards := fun _ => 0
    rnnStates := fun _ _ _ => 0 }

/-! ## Which environment pool `eval` touches (src lines 123, 133) -/

/-- The two vectorized environment pools the runner holds: `self.envs`
(training) and `self.eval_envs` (evaluation). -/
inductive EnvPool : Type
  | training
  | evaluation
deriving DecidableEq

/-- The operations of the vectorized-environment interface. -/
inductive EnvOp : Type
  | opReset
  | opStep
deriving DecidableEq

/-- The sequence of environment interactions `eval` performs, given the
number of while-loop iterations executed: the initial reset is
`eval_obs = self.envs.reset()` (src line 123), which targets the *training*
pool `self.envs`, and each loop iteration calls
`self.eval_envs.step(eval_actions)` (src line 133) on the evaluation pool. -/
def evalEnvInteractions (numPolls : Nat) : List (EnvPool × EnvOp) :=
  (EnvPool.training, EnvOp.opReset) ::
    List.replicate numPolls (EnvPool.evaluation, EnvOp.opStep)

/-! ## The accumulator initialization (src line 120) -/

/-- Outcome of a Python call that may raise `TypeError`. -/
inductive PyOutcome (α : Type) : Type
  | ok (a : α)
  | typeError
deriving DecidableEq

/-- Python call semantics of `np.zeros` as invoked at src line 120:
`np.zeros(self.n_rollout_threads, *self.buffer.rewards.shape[2:],
dtype=np.float32)`.  The signature of `np.zeros` is
`zeros(shape, dtype=float, order='C')`, so the first positional argument is
the shape; when the spread `shape[2:]` is non-empty a second positional
argument binds to `dtype` and clashes with the `dtype` keyword, raising
`TypeError`; when it is empty the call returns a zero array of shape
`(n_rollout_threads,)`. -/
def npZerosSpread (nRolloutThreads : Nat) (rewardTrailingShape : List Nat) :
    PyOutcome (List Nat) :=
  match rewardTrailingShape with
  | [] => .ok [nRolloutThreads]
  | _ :: _ => .typeError

/-- The observable start of `eval` (src lines 117-126): the accumulator
initialization at line 120 executes first; if it raises, `eval` aborts
before the environment reset at line 123 and before the while-loop, so no
environment interaction happens and no episode is recorded; otherwise the
interaction sequence of `evalEnvInteractions` follows. -/
def evalStartTrace (nRolloutThreads : Nat) (rewardTrailingShape : List Nat)
    (numPolls : Nat) : PyOutcome (List (EnvPool × EnvOp)) :=
  match npZerosSpread nRolloutThreads rewardTrailingShape with
  | .ok _ => .ok (evalEnvInteractions numPolls)
  | .typeError => .typeError

/-! ## Claim theorems -/

/-- C3: flattening an `(E, A, F)` tensor over its two leading axes into one
batch axis of size `E*A` (as `collect` does with `np.concatenate` before
querying the Policy) and then splitting that batch axis back into `E`
contiguous blocks of `A` (as `np.split` does) yields the original tensor
unchanged, preserving environment-major, agent-minor ordering, for any
`E, A, F ≥ 1`. -/
theorem C3_flatten_split_roundtrip (E A F : Nat) (hE : 1 ≤ E) (hA : 1 ≤ A)
    (hF : 1 ≤ F) (x : List (List (List ℚ))) (hlen : x.length = E)
    (hrow : ∀ row ∈ x, row.length = A)
    (hfeat : ∀ row ∈ x, ∀ v ∈ row, v.length = F) :
    npSplit (npConcat x) E = x := by
  unfold npSplit npConcat
  have hflat : x.flatten.length = E * A := by
    rw [flatten_length_of_uniform A x hrow, hlen]
  rw [hflat, Nat.mul_div_cancel_left A (by omega : 0 < E), ← hlen]
  exact splitBlocks_flatten A x hrow

/-- Witness for C3 at `E = A = F = 1` on a concrete tensor. -/
theorem C3_flatten_split_roundtrip_witness :
    npSplit (npConcat [[[(5 : ℚ)]]]) 1 = [[[(5 : ℚ)]]] :=
  C3_flatten_split_roundtrip 1 1 1 (by decide) (by decide) (by decide)
    [[[(5 : ℚ)]]] rfl (by simp) (by simp)

/-- C2: `run` executes exactly `tTotal / bufferSize / nRolloutThreads`
(= floor of `tTotal / (bufferSize * nRolloutThreads)`) update cycles, each
performing exactly `bufferSize` collect-step-insert iterations (one buffer
insert each); for `tTotal = 800`, `bufferSize = 4`, `nRolloutThreads = 2`
exactly 100 update cycles execute and the insert runs exactly 400 times. -/
theorem C2_update_cycle_and_insert_counts (tTotal bufferSize nRolloutThreads ep : Nat)
    (hep : ep < numUpdateCycles tTotal bufferSize nRolloutThreads) :
    numUpdateCycles tTotal bufferSize nRolloutThreads =
      tTotal / (bufferSize * nRolloutThreads) ∧
    ((runSchedule tTotal bufferSize nRolloutThreads).filter
      (fun p => p.1 = ep)).length = bufferSize ∧
    (runSchedule tTotal bufferSize nRolloutThreads).length =
      numUpdateCycles tTotal bufferSize nRolloutThreads * bufferSize ∧
    numUpdateCycles 800 4 2 = 100 ∧
    (runSchedule 800 4 2).length = 400 := by
  refine ⟨Nat.div_div_eq_div_mul _ _ _, ?_, ?_, by decide, ?_⟩
  · unfold runSchedule
    rw [runScheduleAux_filter bufferSize ep _ hep]
    simp
  · exact runScheduleAux_length bufferSize _
  · have h1 : numUpdateCycles 800 4 2 = 100 := by decide
    calc (runSchedule 800 4 2).length
        = numUpdateCycles 800 4 2 * 4 := runScheduleAux_length 4 _
      _ = 400 := by rw [h1]

/-- Witness for C2 at the scenario configuration. -/
theorem C2_update_cycle_and_insert_counts_witness :
    numUpdateCycles 800 4 2 = 100 ∧ (runSchedule 800 4 2).length = 400 :=
  ⟨(C2_update_cycle_and_insert_counts 800 4 2 0 (by decide)).2.2.2.1,
   (C2_update_cycle_and_insert_counts 800 4 2 0 (by decide)).2.2.2.2⟩

/-- C10: the checkpoint decision fires on update cycle 0, on the final
update cycle `episodes - 1`, and on every cycle index that is a multiple of
the configured save interval, so a saved artifact exists at both run start
and run end. -/
theorem C10_save_fires_at_boundaries (episodes saveInterval ep : Nat)
    (hpos : 1 ≤ episodes) (hint : 1 ≤ saveInterval) (hdvd : saveInterval ∣ ep) :
    saveFires 0 episodes saveInterval = true ∧
    saveFires (episodes - 1) episodes saveInterval = true ∧
    saveFires ep episodes saveInterval = true := by
  obtain ⟨c, rfl⟩ := hdvd
  refine ⟨?_, ?_, ?_⟩ <;> simp [saveFires, Nat.mul_mod_right]

/-- Witness for C10 with 5 cycles, save interval 2, cycle 4. -/
theorem C10_save_fires_at_boundaries_witness :
    saveFires 0 5 2 = true ∧ saveFires 4 5 2 = true ∧ saveFires 4 5 2 = true :=
  ⟨(C10_save_fires_at_boundaries 5 2 4 (by decide) (by decide) ⟨2, rfl⟩).1,
   (C10_save_fires_at_boundaries 5 2 4 (by decide) (by decide) ⟨2, rfl⟩).2.2,
   (C10_save_fires_at_boundaries 5 2 4 (by decide) (by decide) ⟨2, rfl⟩).2.2⟩

/-- C9: `load` raises a fatal error whenever the algorithm identifier is not
"ppo"; it raises the arity assertion whenever the observation-space length
differs from the agent count; and for "ppo" with matching arity (at least
one agent) it completes, constructing the policy from the first spaces and
the buffer from the agent count. -/
theorem C9_load_validation (alg : String) (obsSp actSp : List Nat) (n : Nat) :
    (alg ≠ "ppo" → loadIsFatal (load alg obsSp actSp n) = true) ∧
    (obsSp.length ≠ n → load alg obsSp actSp n = .error .assertionError) ∧
    (alg = "ppo" → obsSp.length = n → actSp.length = n → 1 ≤ n →
      ∃ o a, obsSp.head? = some o ∧ actSp.head? = some a ∧
        load alg obsSp actSp n = .ok ⟨o, a, n⟩) := by
  refine ⟨?_, ?_, ?_⟩
  · intro hne
    unfold load loadIsFatal
    by_cases h : obsSp.length ≠ n
    · simp [h]
    · cases ho : obsSp.head? <;> cases ha : actSp.head? <;> simp [h, ho, ha, hne]
  · intro h
    unfold load
    rw [if_pos h]
  · intro halg hlen hact hn
    cases obsSp with
    | nil => simp at hlen; omega
    | cons o orest =>
        cases actSp with
        | nil => simp at hact; omega
        | cons a arest =>
            refine ⟨o, a, rfl, rfl, ?_⟩
            unfold load
            rw [if_neg (by simp [hlen])]
            simp [halg]

/-- Witness for C9: an unknown identifier is fatal; "ppo" with matching
arity succeeds. -/
theorem C9_load_validation_witness :
    loadIsFatal (load "dqn" [7] [5] 1) = true ∧
    load "ppo" [7] [5] 1 = .ok ⟨7, 5, 1⟩ := by
  refine ⟨(C9_load_validation "dqn" [7] [5] 1).1 (by decide), ?_⟩
  obtain ⟨o, a, ho, ha, hres⟩ :=
    (C9_load_validation "ppo" [7] [5] 1).2.2 rfl rfl rfl (by decide)
  simp only [List.head?_cons, Option.some.injEq] at ho ha
  rw [hres, ho, ha]

/-- C1: during rollout collection, for every environment/agent pair whose
done flag is true at step `t`, both recurrent-state tensors (actor and
critic) that the next collection query at step `t + 1` reads are the
all-zero vector, and for every pair whose done flag is false those states
equal exactly the updated states the Policy returned at step `t`,
unchanged. -/
theorem C1_reset_masking {E A F O : Nat} (buf : TrajBuffer E A F O) (t : Nat)
    (dones : Fin E → Fin A → Bool) (updActor updCritic : StateTensor E A F)
    (e : Fin E) (a : Fin A) :
    (dones e a = true → ∀ f,
      collectStatesActor (runnerInsert buf t dones updActor updCritic) (t + 1) e a f = 0 ∧
      collectStatesCritic (runnerInsert buf t dones updActor updCritic) (t + 1) e a f = 0) ∧
    (dones e a = false → ∀ f,
      collectStatesActor (runnerInsert buf t dones updActor updCritic) (t + 1) e a f = updActor e a f ∧
      collectStatesCritic (runnerInsert buf t dones updActor updCritic) (t + 1) e a f = updCritic e a f) := by
  unfold collectStatesActor collectStatesCritic runnerInsert bufferInsertStates maskReset
  constructor <;> intro h f <;> simp [Function.update_same, h]

/-- Concrete buffer for the C1 witness: every recurrent entry is 1. -/
def c1Buf : TrajBuffer 1 1 1 1 :=
  ⟨fun _ _ _ _ => 0, fun _ _ _ _ => 1, fun _ _ _ _ => 1⟩

/-- Concrete Policy outputs for the C1 witness. -/
def c1Upd : StateTensor 1 1 1 := fun _ _ _ => 7

/-- Witness for C1 at `E = A = F = 1`: a done pair reads zero at step 1, a
not-done pair reads the returned state 7 unchanged. -/
theorem C1_reset_masking_witness :
    collectStatesActor (runnerInsert c1Buf 0 (fun _ _ => true) c1Upd c1Upd) 1 0 0 0 = 0 ∧
    collectStatesActor (runnerInsert c1Buf 0 (fun _ _ => false) c1Upd c1Upd) 1 0 0 0 = 7 :=
  ⟨((C1_reset_masking c1Buf 0 (fun _ _ => true) c1Upd c1Upd 0 0).1 rfl 0).1,
   by
    have h := ((C1_reset_masking c1Buf 0 (fun _ _ => false) c1Upd c1Upd 0 0).2 rfl 0).1
    simpa [c1Upd] using h⟩

/-- C4: in the evaluation loop, an environment counts as one completed
episode exactly when all of its agents report done (logical AND across the
agent axis); on completion the cumulative reward (including this step's
reward) is appended to the result list in environment order, the
accumulator resets to exactly zero and the recurrent states are zeroed; and
the completed-episode counter grows by the number of environments completed
on this step. -/
theorem C4_eval_episode_accounting {E A F : Nat} (inp : EvalStepInput E A F)
    (st : EvalState E A F) (e : Fin E) :
    (envDone inp.dones e = true ↔ ∀ a, inp.dones e a = true) ∧
    (evalStep inp st).totalEpisodes =
      st.totalEpisodes + (doneListAux (fun e2 => envDone inp.dones e2)).length ∧
    (evalStep inp st).episodeRewards =
      st.episodeRewards ++ (doneListAux (fun e2 => envDone inp.dones e2)).map
        (fun e2 => st.cumulativeRewards e2 + inp.rewards e2) ∧
    (envDone inp.dones e = true →
      (evalStep inp st).cumulativeRewards e = 0 ∧
      ∀ a f, (evalStep inp st).rnnStates e a f = 0) ∧
    (envDone inp.dones e = false →
      (evalStep inp st).cumulativeRewards e =
        st.cumulativeRewards e + inp.rewards e ∧
      ∀ a f, (evalStep inp st).rnnStates e a f = inp.newRnn e a f) := by
  refine ⟨?_, rfl, rfl, ?_, ?_⟩
  · simp [envDone, List.all_eq_true, List.mem_finRange]
  · intro h
    refine ⟨by simp [evalStep, h], fun a f => by simp [evalStep, h]⟩
  · intro h
    refine ⟨by simp [evalStep, h], fun a f => by simp [evalStep, h]⟩

/-- Concrete evaluation input for the C4 witness: two environments, one
agent; environment 0 is done, environment 1 is not. -/
def c4Input : EvalStepInput 2 1 1 :=
  ⟨fun e => (3 : ℚ) + (e.val : ℚ), fun e _ => e.val == 0, fun _ _ _ => 9⟩

/-- Concrete evaluation state for the C4 witness. -/
def c4State : EvalState 2 1 1 :=
  ⟨0, [], fun e => (10 : ℚ) * ((e.val : ℚ) + 1), fun _ _ _ => 5⟩

/-- Witness for C4: the done environment resets to zero and zeroes its
recurrent state; the surviving environment accumulates and keeps the Policy
output. -/
theorem C4_eval_episode_accounting_witness :
    (envDone c4Input.dones 0 = true ↔ ∀ a, c4Input.dones 0 a = true) ∧
    ((evalStep c4Input c4State).cumulativeRewards 0 = 0 ∧
      ∀ a f, (evalStep c4Input c4State).rnnStates 0 a f = 0) ∧
    ((evalStep c4Input c4State).cumulativeRewards 1 =
        c4State.cumulativeRewards 1 + c4Input.rewards 1 ∧
      ∀ a f, (evalStep c4Input c4State).rnnStates 1 a f = c4Input.newRnn 1 a f) :=
  ⟨(C4_eval_episode_accounting c4Input c4State 0).1,
   (C4_eval_episode_accounting c4Input c4State 0).2.2.2.1 (by decide),
   (C4_eval_episode_accounting c4Input c4State 1).2.2.2.2 (by decide)⟩

/-- C5 evidence: the very first environment interaction `eval` performs is
the reset of the *training* pool `self.envs`, for any number of loop
iterations; only the per-iteration steps target the evaluation pool. -/
theorem C5_initial_reset_targets_training_pool :
    ∀ numPolls, (evalEnvInteractions numPolls).head? =
      some (EnvPool.training, EnvOp.opReset) :=
  fun _ => rfl

/-- Concrete buffer for the C6 counterexample: every recurrent entry is 1. -/
def c6Buf : TrajBuffer 1 1 1 1 :=
  ⟨fun _ _ _ _ => 0, fun _ _ _ _ => 1, fun _ _ _ _ => 1⟩

/-- Concrete reset observation for the C6 theorems. -/
def c6Obs : ObsTensor 1 1 1 := fun _ _ _ => 2

/-- C6 counterexample: `warmup` does *not* zero the recurrent states — on a
buffer whose recurrent entries are 1, both state arrays still read 1 at
slot 0 after `warmup`, and 1 is not 0. -/
theorem C6_warmup_does_not_zero_states :
    (warmup c6Obs c6Buf).rnn_states_actor 0 0 0 0 = 1 ∧
    (warmup c6Obs c6Buf).rnn_states_critic 0 0 0 0 = 1 ∧ (1 : ℚ) ≠ 0 :=
  ⟨rfl, rfl, one_ne_zero⟩

/-- C6 (amended): `warmup` resets the environments and writes the returned
observations into buffer slot 0; every other observation slot and both
recurrent-state arrays are left unchanged (recurrent states are not zeroed
by `warmup`). -/
theorem C6_warmup_amended {E A F O : Nat} (resetObs : ObsTensor E A O)
    (buf : TrajBuffer E A F O) :
    (warmup resetObs buf).obs 0 = resetObs ∧
    (∀ t, t ≠ 0 → (warmup resetObs buf).obs t = buf.obs t) ∧
    (warmup resetObs buf).rnn_states_actor = buf.rnn_states_actor ∧
    (warmup resetObs buf).rnn_states_critic = buf.rnn_states_critic := by
  refine ⟨?_, ?_, rfl, rfl⟩
  · simp [warmup, Function.update_same]
  · intro t ht
    simp [warmup, Function.update_noteq ht]

/-- Witness for C6 (amended) on the concrete buffer. -/
theorem C6_warmup_amended_witness :
    (warmup c6Obs c6Buf).obs 0 = c6Obs ∧
    (warmup c6Obs c6Buf).obs 1 = c6Buf.obs 1 ∧
    (warmup c6Obs c6Buf).rnn_states_actor = c6Buf.rnn_states_actor :=
  ⟨(C6_warmup_amended c6Obs c6Buf).1,
   (C6_warmup_amended c6Obs c6Buf).2.1 1 (by decide),
   (C6_warmup_amended c6Obs c6Buf).2.2.1⟩

/-- Concrete evaluation input for C7: two environments, one agent, both
done on this step, reward 3 each. -/
def c7BothDone : EvalStepInput 2 1 1 :=
  ⟨fun _ => 3, fun _ _ => true, fun _ _ _ => 0⟩

/-- C7 counterexample: with target 3 and both environments completing on the
first poll, exactly 2 rewards are recorded and the counter is 2, but the
loop does *not* terminate after that single step: with a second both-done
input available it polls again, ending at counter 4, not 2. -/
theorem C7_loop_does_not_stop_after_single_step :
    (evalStep c7BothDone (evalInitState 2 1 1)).totalEpisodes = 2 ∧
    (evalStep c7BothDone (evalInitState 2 1 1)).episodeRewards.length = 2 ∧
    (evalLoop 3 [c7BothDone, c7BothDone] (evalInitState 2 1 1)).totalEpisodes = 4 ∧
    (evalLoop 3 [c7BothDone, c7BothDone] (evalInitState 2 1 1)).totalEpisodes ≠
      (evalStep c7BothDone (evalInitState 2 1 1)).totalEpisodes := by
  refine ⟨?_, ?_, ?_, ?_⟩ <;> decide

/-- C7 (amended): with target 3 and two evaluation environments both
completing simultaneously on the first poll, exactly 2 rewards are recorded
and the counter is 2 after that step; since 2 < 3 the loop performs a
further poll (it consumes the next input), and it stops consuming inputs
exactly once the counter has reached the target. -/
theorem C7_simultaneous_completion_amended (i : EvalStepInput 2 1 1)
    (rest : List (EvalStepInput 2 1 1)) (hd : ∀ e a, i.dones e a = true) :
    (evalStep i (evalInitState 2 1 1)).totalEpisodes = 2 ∧
    (evalStep i (evalInitState 2 1 1)).episodeRewards.length = 2 ∧
    evalLoop 3 (i :: rest) (evalInitState 2 1 1) =
      evalLoop 3 rest (evalStep i (evalInitState 2 1 1)) ∧
    (∀ st : EvalState 2 1 1, ¬ st.totalEpisodes < 3 →
      evalLoop 3 rest st = st) := by
  have hdone : ∀ e : Fin 2, envDone i.dones e = true := by
    intro e
    simp only [envDone, List.all_eq_true, List.mem_finRange]
    intro a _
    exact hd e a
  have hlist : doneListAux (fun e => envDone i.dones e) = List.finRange 2 := by
    unfold doneListAux
    apply List.filter_eq_self.mpr
    intro e _
    simp [hdone e]
  refine ⟨?_, ?_, ?_, ?_⟩
  · simp [evalStep, evalInitState, hlist]
  · simp [evalStep, evalInitState, hlist]
  · simp [evalLoop, evalInitState]
  · intro st h
    cases rest with
    | nil => rfl
    | cons x xs => simp [evalLoop, h]

/-- Witness for C7 (amended) on the concrete both-done input. -/
theorem C7_simultaneous_completion_amended_witness :
    (evalStep c7BothDone (evalInitState 2 1 1)).totalEpisodes = 2 ∧
    evalLoop 3 [c7BothDone] (evalInitState 2 1 1) =
      evalLoop 3 [] (evalStep c7BothDone (evalInitState 2 1 1)) :=
  ⟨(C7_simultaneous_completion_amended c7BothDone [] (by decide)).1,
   (C7_simultaneous_completion_amended c7BothDone [] (by decide)).2.2.1⟩

/-- C8: whenever the reward array carries at least one trailing dimension
beyond the environment axis, the accumulator initialization of `eval`
raises `TypeError` (np.zeros receives the shape spread over several
positional arguments together with a `dtype` keyword), and `eval` aborts
before any environment interaction: the start trace is the `TypeError`
outcome, carrying no reset and no step. -/
theorem C8_accumulator_init_type_error (nRolloutThreads numPolls : Nat)
    (trailing : List Nat) (h : trailing ≠ []) :
    npZerosSpread nRolloutThreads trailing = .typeError ∧
    evalStartTrace nRolloutThreads trailing numPolls = .typeError := by
  cases trailing with
  | nil => exact absurd rfl h
  | cons d rest => exact ⟨rfl, rfl⟩

/-- Witness for C8 with two environments and trailing reward shape (1,). -/
theorem C8_accumulator_init_type_error_witness :
    npZerosSpread 2 [1] = .typeError ∧ evalStartTrace 2 [1] 0 = .typeError :=
  C8_accumulator_init_type_error 2 0 [1] (by decide)

end CloseAirCombat
